import Mathlib

/-!
Verification of the nblistener crate (src/lib.rs): a cancellable
non-blocking accept loop over a TCP listener.

The embedding models:
  * `EBADF` — the platform-specific cancellation sentinel constant
    (9 on POSIX, 10038 on Windows), from the `plat_specifics` modules;
  * `IOError` — a value of `std::io::Error` as the loop observes it,
    through its two accessors `kind()` and `raw_os_error()`;
  * `os_error` — how the standard library builds an `io::Error` from a
    raw OS error code returned by a failing syscall (the kind is decoded
    from the code, so e.g. code 9 never decodes to `WouldBlock`);
  * `handle_incoming_loop` — the body of `Listener::handle_incoming`,
    run over a finite trace of the values the `incoming()` iterator
    yields; an exhausted trace means the loop is still running (the
    real iterator is infinite), while a `none` element models the
    iterator ending, which would reach the `unreachable!()` line;
  * `bind`, `close` — the other two trait methods, over an explicit
    OS-level listener state.
-/

/-- Raw OS error code of the cancellation sentinel, from `plat_specifics`:
10038 (WSAENOTSOCK) on Windows, 9 (EBADF) on POSIX. -/
def EBADF (windows : Bool) : Int :=
  if windows then 10038 else 9

/-- The error kinds of `std::io::ErrorKind` that matter to this program:
`wouldBlock` is tested explicitly by `handle_incoming`; the rest stand for
every other kind. -/
inductive ErrorKind where
  | wouldBlock
  | interrupted
  | connectionAborted
  | addrInUse
  | permissionDenied
  | other
deriving DecidableEq

/-- An `std::io::Error` as `handle_incoming` observes it: its `kind()` and
its `raw_os_error()` (`none` for errors not backed by an OS error code). -/
structure IOError where
  kind : ErrorKind
  raw_os_error : Option Int
deriving DecidableEq

/-- Kind decoding performed by the standard library when it turns a raw OS
error code into an `io::Error` (`decode_error_kind`): the would-block codes
(EAGAIN 11 / EWOULDBLOCK 35 on POSIX, WSAEWOULDBLOCK 10035 on Windows)
decode to `wouldBlock`; EINTR to `interrupted`; codes with no specific
mapping (among them EBADF 9 and WSAENOTSOCK 10038) decode to `other`. -/
def decode_error_kind (windows : Bool) (code : Int) : ErrorKind :=
  if windows then
    if code = 10035 then ErrorKind.wouldBlock
    else if code = 10053 then ErrorKind.connectionAborted
    else ErrorKind.other
  else
    if code = 11 then ErrorKind.wouldBlock
    else if code = 35 then ErrorKind.wouldBlock
    else if code = 4 then ErrorKind.interrupted
    else if code = 103 then ErrorKind.connectionAborted
    else ErrorKind.other

/-- The `io::Error` produced when a syscall fails with raw OS error
`code`: `raw_os_error()` returns the code and `kind()` its decoding. -/
def os_error (windows : Bool) (code : Int) : IOError :=
  IOError.mk (decode_error_kind windows code) (some code)

/-- One value yielded by the `incoming()` iterator: an accepted connection
(identified by a numeric id standing for the `TcpStream`) or an error. -/
inductive AcceptResult where
  | ok (s : Nat)
  | err (e : IOError)
deriving DecidableEq

/-- How a run of `handle_incoming` ended, as far as the modelled trace
shows: `running` — the finite trace was consumed without the loop
returning (the real loop would keep polling); `retOk` — returned `Ok(())`
(the cancellation sentinel path); `retErr e` — returned `Err(e)`;
`unreachableHit` — the `for` loop ended because `incoming()` yielded
`None`, so control reached the `unreachable!()` line. -/
inductive LoopOutcome where
  | running
  | retOk
  | retErr (e : IOError)
  | unreachableHit
deriving DecidableEq

/-- Observable record of a (partial) run of `handle_incoming`: how it
ended, the connection ids passed to the handler in invocation order, and
the durations of the `thread::sleep` calls in order. -/
structure RunState where
  outcome : LoopOutcome
  handled : List Nat
  sleeps : List Nat
deriving DecidableEq

/-- The `for stream in self.incoming()` loop of
`Listener::handle_incoming`, transcribed over a finite trace of iterator
yields (`none` = the iterator ended). Per element: a connection invokes
the handler synchronously and the loop continues; an error of kind
`WouldBlock` sleeps for `timeout` and the loop continues; otherwise, if
`raw_os_error()` is `Some(EBADF)` the function returns `Ok(())`, else it
returns `Err(err)`. -/
def handle_incoming_loop (ebadf : Int) (timeout : Nat) :
    List (Option AcceptResult) → RunState
  | [] => RunState.mk LoopOutcome.running [] []
  | none :: _ => RunState.mk LoopOutcome.unreachableHit [] []
  | some (AcceptResult.ok s) :: rest =>
      let r := handle_incoming_loop ebadf timeout rest
      RunState.mk r.outcome (s :: r.handled) r.sleeps
  | some (AcceptResult.err e) :: rest =>
      if e.kind = ErrorKind.wouldBlock then
        let r := handle_incoming_loop ebadf timeout rest
        RunState.mk r.outcome r.handled (timeout :: r.sleeps)
      else
        match e.raw_os_error with
        | some val =>
            if val = ebadf then RunState.mk LoopOutcome.retOk [] []
            else RunState.mk (LoopOutcome.retErr e) [] []
        | none => RunState.mk (LoopOutcome.retErr e) [] []

/-- `Incoming::next` of the standard library: it always returns
`Some(self.listener.accept().map(...))`, never `None`. -/
def incoming_next (a : AcceptResult) : Option AcceptResult :=
  some a

/-- The iterator trace `handle_incoming` consumes, given the trace of
accept outcomes: every element is wrapped in `Some` by `incoming_next`. -/
def incoming (accepts : List AcceptResult) : List (Option AcceptResult) :=
  accepts.map incoming_next

/-- `Listener::handle_incoming` on a platform (`windows` flag), a poll
interval `timeout`, run against a finite prefix `accepts` of the accept
outcomes the OS produces. -/
def handle_incoming (windows : Bool) (timeout : Nat)
    (accepts : List AcceptResult) : RunState :=
  handle_incoming_loop (EBADF windows) timeout (incoming accepts)

/-- OS-level state of the listening socket: whether it is in non-blocking
mode and whether its descriptor has been invalidated by `close`. -/
structure ListenerState where
  nonblocking : Bool
  closed : Bool
deriving DecidableEq

/-- `TcpListener::bind`: either fails with the OS error of the attempt, or
yields a fresh listening socket, which the OS creates in blocking mode. -/
def tcp_listener_bind (osResult : Option IOError) :
    Except IOError ListenerState :=
  match osResult with
  | some e => Except.error e
  | none => Except.ok (ListenerState.mk false false)

/-- `TcpListener::set_nonblocking`: either fails with the OS error of the
attempt, or sets the socket's non-blocking flag to `b`. -/
def set_nonblocking (l : ListenerState) (b : Bool)
    (osResult : Option IOError) : Except IOError ListenerState :=
  match osResult with
  | some e => Except.error e
  | none => Except.ok (ListenerState.mk b l.closed)

/-- `Listener::bind`: `TcpListener::bind(addr)?`, then
`set_nonblocking(true)?`, then `Ok(listener)`. `r1` and `r2` are the OS
responses to the two syscalls. -/
def Listener.bind (r1 r2 : Option IOError) : Except IOError ListenerState :=
  match tcp_listener_bind r1 with
  | Except.error e => Except.error e
  | Except.ok l =>
      match set_nonblocking l true r2 with
      | Except.error e => Except.error e
      | Except.ok l2 => Except.ok l2

/-- `Listener::close`: `libc::close(fd)` / `winsock2::closesocket`,
invalidating the descriptor at the OS level. The call's return value is
ignored by the code, so the operation is infallible for the caller and is
modelled as a pure state update. -/
def close (l : ListenerState) : ListenerState :=
  ListenerState.mk l.nonblocking true

/-- Modelled from the spec: the OS semantics of `accept` on the listener
(invariant I2 and §4.2 of the spec, not code of this crate). On an
invalidated (closed) descriptor, `accept` fails with the platform's
resource-invalidated code `EBADF`; on a live non-blocking socket it yields
the ready connection if one is pending and otherwise fails with the
platform's would-block code (EAGAIN 11 / WSAEWOULDBLOCK 10035). -/
def os_accept (windows : Bool) (l : ListenerState) (ready : Option Nat) :
    AcceptResult :=
  if l.closed then AcceptResult.err (os_error windows (EBADF windows))
  else
    match ready with
    | some s => AcceptResult.ok s
    | none => AcceptResult.err (os_error windows (if windows then 10035 else 11))

/-- Splitting law for the loop: if the loop has not returned after
consuming `l1`, processing `l1 ++ l2` continues into `l2`, and the handler
invocations and sleeps concatenate in order. -/
theorem handle_incoming_loop_append (ebadf : Int) (timeout : Nat)
    (l1 l2 : List (Option AcceptResult))
    (h : (handle_incoming_loop ebadf timeout l1).outcome = LoopOutcome.running) :
    handle_incoming_loop ebadf timeout (l1 ++ l2) =
      RunState.mk (handle_incoming_loop ebadf timeout l2).outcome
        ((handle_incoming_loop ebadf timeout l1).handled
          ++ (handle_incoming_loop ebadf timeout l2).handled)
        ((handle_incoming_loop ebadf timeout l1).sleeps
          ++ (handle_incoming_loop ebadf timeout l2).sleeps) := by
  induction l1 with
  | nil => simp [handle_incoming_loop]
  | cons hd tl ih =>
    cases hd with
    | none => simp [handle_incoming_loop] at h
    | some a =>
      cases a with
      | ok s =>
        have h2 : (handle_incoming_loop ebadf timeout tl).outcome =
            LoopOutcome.running := by
          simpa [handle_incoming_loop] using h
        simp [handle_incoming_loop, ih h2]
      | err e =>
        by_cases hk : e.kind = ErrorKind.wouldBlock
        · have h2 : (handle_incoming_loop ebadf timeout tl).outcome =
              LoopOutcome.running := by
            simpa [handle_incoming_loop, hk] using h
          simp [handle_incoming_loop, hk, ih h2]
        · rcases hr : e.raw_os_error with _ | v
          · simp [handle_incoming_loop, hk, hr] at h
          · by_cases hv : v = ebadf
            · simp [handle_incoming_loop, hk, hr, hv] at h
            · simp [handle_incoming_loop, hk, hr, hv] at h

/-- Every sleep the loop performs has duration exactly `timeout`. -/
theorem handle_incoming_loop_sleeps_eq (ebadf : Int) (timeout : Nat)
    (l : List (Option AcceptResult)) (d : Nat)
    (hd : d ∈ (handle_incoming_loop ebadf timeout l).sleeps) : d = timeout := by
  induction l with
  | nil => simp [handle_incoming_loop] at hd
  | cons hd2 tl ih =>
    cases hd2 with
    | none => simp [handle_incoming_loop] at hd
    | some a =>
      cases a with
      | ok s =>
        exact ih (by simpa [handle_incoming_loop] using hd)
      | err e =>
        by_cases hk : e.kind = ErrorKind.wouldBlock
        · rcases (by simpa [handle_incoming_loop, hk] using hd :
              d = timeout ∨ d ∈ (handle_incoming_loop ebadf timeout tl).sleeps) with
            h1 | h2
          · exact h1
          · exact ih h2
        · rcases hr : e.raw_os_error with _ | v
          · simp [handle_incoming_loop, hk, hr] at hd
          · by_cases hv : v = ebadf
            · simp [handle_incoming_loop, hk, hr, hv] at hd
            · simp [handle_incoming_loop, hk, hr, hv] at hd

/-- Over a trace coming from the `incoming()` iterator (which never yields
`None`), the loop's outcome is one of: still running, returned `Ok`, or
returned `Err`. -/
theorem handle_incoming_outcome_cases (ebadf : Int) (timeout : Nat)
    (accepts : List AcceptResult) :
    (handle_incoming_loop ebadf timeout (incoming accepts)).outcome =
        LoopOutcome.running ∨
      (handle_incoming_loop ebadf timeout (incoming accepts)).outcome =
        LoopOutcome.retOk ∨
      ∃ e, (handle_incoming_loop ebadf timeout (incoming accepts)).outcome =
        LoopOutcome.retErr e := by
  induction accepts with
  | nil => simp [incoming, handle_incoming_loop]
  | cons hd tl ih =>
    cases hd with
    | ok s =>
      simpa [incoming, incoming_next, handle_incoming_loop] using ih
    | err e =>
      by_cases hk : e.kind = ErrorKind.wouldBlock
      · simpa [incoming, incoming_next, handle_incoming_loop, hk] using ih
      · rcases hr : e.raw_os_error with _ | v
        · simp [incoming, incoming_next, handle_incoming_loop, hk, hr]
        · by_cases hv : v = ebadf
          · simp [incoming, incoming_next, handle_incoming_loop, hk, hr, hv]
          · simp [incoming, incoming_next, handle_incoming_loop, hk, hr, hv]

/-- The cancellation sentinel never decodes to the would-block kind, on
either platform. -/
theorem decode_ebadf_not_wouldblock (windows : Bool) :
    decode_error_kind windows (EBADF windows) ≠ ErrorKind.wouldBlock := by
  cases windows <;> decide

/-- C1: if an accept attempt inside `handle_incoming` fails with the
platform's resource-invalidated error code (EBADF: 9 on POSIX, 10038 on
Windows), then `handle_incoming` terminates and returns `Ok(())`, never
surfacing that error to the caller: for any prefix `pre` of accept
outcomes the loop has survived, the run whose next accept fails with the
sentinel code ends with outcome `retOk`, regardless of the poll interval,
the platform, or anything after. -/
theorem claim_ebadf_returns_ok (windows : Bool) (timeout : Nat)
    (pre rest : List AcceptResult)
    (h : (handle_incoming windows timeout pre).outcome = LoopOutcome.running) :
    (handle_incoming windows timeout
        (pre ++ AcceptResult.err (os_error windows (EBADF windows)) :: rest)).outcome =
      LoopOutcome.retOk := by
  have hsplit := handle_incoming_loop_append (EBADF windows) timeout
    (incoming pre)
    (some (AcceptResult.err (os_error windows (EBADF windows))) :: incoming rest) h
  have hmap : incoming (pre ++ AcceptResult.err (os_error windows (EBADF windows)) :: rest) =
      incoming pre ++
        (some (AcceptResult.err (os_error windows (EBADF windows))) :: incoming rest) := by
    simp [incoming, incoming_next]
  rw [handle_incoming, hmap, hsplit]
  cases windows <;>
    simp [handle_incoming_loop, os_error, decode_error_kind, EBADF]

theorem claim_ebadf_returns_ok_witness :
    (handle_incoming false 5 []).outcome = LoopOutcome.running ∧
      (handle_incoming false 5
          ([] ++ AcceptResult.err (os_error false (EBADF false)) :: [])).outcome =
        LoopOutcome.retOk :=
  ⟨by decide, claim_ebadf_returns_ok false 5 [] [] (by decide)⟩

/-- C2: any accept error whose kind is not would-block and whose raw OS
code is not the sentinel makes `handle_incoming` return exactly that error
value, unmodified, immediately: the run ends with `retErr e` at that
point, nothing after the error is processed (the equality does not depend
on `rest`: no retry), and no further handler call or sleep occurs. -/
theorem claim_fatal_error_propagated (windows : Bool) (timeout : Nat)
    (e : IOError) (pre rest : List AcceptResult)
    (h : (handle_incoming windows timeout pre).outcome = LoopOutcome.running)
    (hk : e.kind ≠ ErrorKind.wouldBlock)
    (hr : e.raw_os_error ≠ some (EBADF windows)) :
    handle_incoming windows timeout (pre ++ AcceptResult.err e :: rest) =
      RunState.mk (LoopOutcome.retErr e)
        (handle_incoming windows timeout pre).handled
        (handle_incoming windows timeout pre).sleeps := by
  have hsplit := handle_incoming_loop_append (EBADF windows) timeout
    (incoming pre) (some (AcceptResult.err e) :: incoming rest) h
  have hmap : incoming (pre ++ AcceptResult.err e :: rest) =
      incoming pre ++ (some (AcceptResult.err e) :: incoming rest) := by
    simp [incoming, incoming_next]
  rw [handle_incoming, hmap, hsplit]
  rcases hro : e.raw_os_error with _ | v
  · simp [handle_incoming_loop, hk, hro, handle_incoming]
  · have hv : v ≠ EBADF windows := by
      intro hvv
      exact hr (by rw [hro, hvv])
    simp [handle_incoming_loop, hk, hro, hv, handle_incoming]

theorem claim_fatal_error_propagated_witness :
    (handle_incoming false 3 []).outcome = LoopOutcome.running ∧
      (IOError.mk ErrorKind.permissionDenied (some 13)).kind ≠ ErrorKind.wouldBlock ∧
      (IOError.mk ErrorKind.permissionDenied (some 13)).raw_os_error ≠ some (EBADF false) ∧
      handle_incoming false 3
          ([] ++ AcceptResult.err (IOError.mk ErrorKind.permissionDenied (some 13)) :: []) =
        RunState.mk (LoopOutcome.retErr (IOError.mk ErrorKind.permissionDenied (some 13)))
          (handle_incoming false 3 []).handled
          (handle_incoming false 3 []).sleeps :=
  ⟨by decide, by decide, by decide,
    claim_fatal_error_propagated false 3
      (IOError.mk ErrorKind.permissionDenied (some 13)) [] []
      (by decide) (by decide) (by decide)⟩

/-- C3: `handle_incoming` has no normal-completion exit: since the
`incoming()` iterator always yields `Some`, the loop never falls through
to the code after it, so the `unreachable!()` line never executes, and a
run either is still polling, or returned `Ok(())` via the sentinel, or
returned some `Err`. -/
theorem claim_unreachable_never_fires (windows : Bool) (timeout : Nat)
    (accepts : List AcceptResult) :
    (handle_incoming windows timeout accepts).outcome ≠ LoopOutcome.unreachableHit ∧
      ((handle_incoming windows timeout accepts).outcome = LoopOutcome.running ∨
        (handle_incoming windows timeout accepts).outcome = LoopOutcome.retOk ∨
        ∃ e, (handle_incoming windows timeout accepts).outcome =
          LoopOutcome.retErr e) := by
  have hcases := handle_incoming_outcome_cases (EBADF windows) timeout accepts
  constructor
  · rcases hcases with h1 | h2 | ⟨e, h3⟩
    · rw [handle_incoming, h1]; intro hc; exact LoopOutcome.noConfusion hc
    · rw [handle_incoming, h2]; intro hc; exact LoopOutcome.noConfusion hc
    · rw [handle_incoming, h3]; intro hc; exact LoopOutcome.noConfusion hc
  · exact hcases

/-- C4: when an accept attempt fails with the would-block kind, the loop
sleeps for exactly the caller-supplied poll interval and then retries: the
run equals the run on the remaining trace with one sleep of duration
`timeout` prepended (so the error is never returned and never terminates
the loop), and moreover every sleep duration of any run equals `timeout`
(no adaptive backoff). -/
theorem claim_wouldblock_sleeps_and_retries (windows : Bool) (timeout : Nat)
    (e : IOError) (rest accepts : List AcceptResult) (d : Nat)
    (hk : e.kind = ErrorKind.wouldBlock)
    (hd : d ∈ (handle_incoming windows timeout accepts).sleeps) :
    handle_incoming windows timeout (AcceptResult.err e :: rest) =
      RunState.mk (handle_incoming windows timeout rest).outcome
        (handle_incoming windows timeout rest).handled
        (timeout :: (handle_incoming windows timeout rest).sleeps) ∧
      d = timeout := by
  constructor
  · simp [handle_incoming, incoming, incoming_next, handle_incoming_loop, hk]
  · exact handle_incoming_loop_sleeps_eq (EBADF windows) timeout
      (incoming accepts) d hd

theorem claim_wouldblock_sleeps_and_retries_witness :
    (IOError.mk ErrorKind.wouldBlock none).kind = ErrorKind.wouldBlock ∧
      7 ∈ (handle_incoming false 7
        [AcceptResult.err (IOError.mk ErrorKind.wouldBlock none)]).sleeps ∧
      (handle_incoming false 7
          (AcceptResult.err (IOError.mk ErrorKind.wouldBlock none) :: []) =
        RunState.mk (handle_incoming false 7 []).outcome
          (handle_incoming false 7 []).handled
          (7 :: (handle_incoming false 7 []).sleeps) ∧
        7 = 7) :=
  ⟨by decide, by decide,
    claim_wouldblock_sleeps_and_retries false 7
      (IOError.mk ErrorKind.wouldBlock none) []
      [AcceptResult.err (IOError.mk ErrorKind.wouldBlock none)] 7
      (by decide) (by decide)⟩

/-- C5: whenever `bind` succeeds, the listener it returns already has its
non-blocking flag set (the flag is set before `bind` returns, hence before
any caller code sees the listener), and no operation of the component ever
clears it: `close`, the only operation that mutates the listener state,
preserves the non-blocking flag (invariant I1). -/
theorem claim_bind_nonblocking_invariant (r1 r2 : Option IOError)
    (l l2 : ListenerState) (h : Listener.bind r1 r2 = Except.ok l) :
    l.nonblocking = true ∧ (close l2).nonblocking = l2.nonblocking := by
  constructor
  · rcases r1 with _ | e1
    · rcases r2 with _ | e2
      · have h2 : ListenerState.mk true false = l := Except.ok.inj h
        exact h2 ▸ rfl
      · simp [Listener.bind, tcp_listener_bind, set_nonblocking] at h
    · simp [Listener.bind, tcp_listener_bind] at h
  · rfl

theorem claim_bind_nonblocking_invariant_witness :
    Listener.bind none none = Except.ok (ListenerState.mk true false) ∧
      ((ListenerState.mk true false).nonblocking = true ∧
        (close (ListenerState.mk false false)).nonblocking =
          (ListenerState.mk false false).nonblocking) :=
  ⟨rfl,
    claim_bind_nonblocking_invariant none none
      (ListenerState.mk true false) (ListenerState.mk false false) rfl⟩

/-- C6: for `N` connections reported ready before any error, the handler
is invoked exactly `N` times, once per connection, in arrival order, and
each invocation completes before the loop attempts the next accept: the
run on `conns.map ok ++ rest` ends as the run on `rest` does, with the
handled list `conns ++ (handled of rest)` and the same sleeps. -/
theorem claim_dispatch_order (windows : Bool) (timeout : Nat)
    (conns : List Nat) (rest : List AcceptResult) :
    handle_incoming windows timeout (conns.map AcceptResult.ok ++ rest) =
      RunState.mk (handle_incoming windows timeout rest).outcome
        (conns ++ (handle_incoming windows timeout rest).handled)
        (handle_incoming windows timeout rest).sleeps := by
  induction conns with
  | nil => simp [handle_incoming]
  | cons c cs ih =>
    have step : handle_incoming windows timeout
        ((c :: cs).map AcceptResult.ok ++ rest) =
      RunState.mk
        (handle_incoming windows timeout (cs.map AcceptResult.ok ++ rest)).outcome
        (c :: (handle_incoming windows timeout (cs.map AcceptResult.ok ++ rest)).handled)
        (handle_incoming windows timeout (cs.map AcceptResult.ok ++ rest)).sleeps := by
      simp only [List.map_cons, List.cons_append, handle_incoming, incoming,
        incoming_next, handle_incoming_loop, List.append_eq]
    rw [step, ih]
    rfl

/-- C7: if `close` is called on the listener before `handle_incoming`
starts, the run returns `Ok(())` with zero handler invocations: on a
closed listener every OS accept attempt fails with the sentinel code, so
the very first poll exits the loop successfully, whatever connections
would otherwise have been ready. -/
theorem claim_close_before_run (windows : Bool) (timeout : Nat)
    (l : ListenerState) (r : Option Nat) (readies : List (Option Nat)) :
    handle_incoming windows timeout
        ((r :: readies).map (os_accept windows (close l))) =
      RunState.mk LoopOutcome.retOk [] [] := by
  have hacc : os_accept windows (close l) r =
      AcceptResult.err (os_error windows (EBADF windows)) := by
    simp [os_accept, close]
  simp only [List.map_cons, hacc]
  cases windows <;>
    simp [handle_incoming, incoming, incoming_next, handle_incoming_loop,
      os_error, decode_error_kind, EBADF]

/-- C8: `close` is idempotent and infallible for the caller: it returns
listener state, not a `Result` (the raw OS call's return value is
ignored), a second `close` on an already-invalidated listener leaves the
state exactly as one `close` did, and any subsequent `handle_incoming` run
over the accept outcomes of the doubly-closed listener is identical to the
run after a single `close`. -/
theorem claim_close_idempotent (l : ListenerState) (windows : Bool)
    (timeout : Nat) (readies : List (Option Nat)) :
    close (close l) = close l ∧
      handle_incoming windows timeout
          (readies.map (os_accept windows (close (close l)))) =
        handle_incoming windows timeout
          (readies.map (os_accept windows (close l))) := by
  constructor
  · rfl
  · rfl

/-- C9: an accept error with no raw OS code (`raw_os_error()` = `None`)
whose kind is not would-block is propagated to the caller as `Err` of that
very error: the sentinel comparison never matches (there is no code to
compare), so such an error is never treated as cancellation. -/
theorem claim_no_raw_code_propagated (windows : Bool) (timeout : Nat)
    (e : IOError) (rest : List AcceptResult)
    (hr : e.raw_os_error = none) (hk : e.kind ≠ ErrorKind.wouldBlock) :
    handle_incoming windows timeout (AcceptResult.err e :: rest) =
      RunState.mk (LoopOutcome.retErr e) [] [] := by
  simp [handle_incoming, incoming, incoming_next, handle_incoming_loop, hk, hr]

theorem claim_no_raw_code_propagated_witness :
    (IOError.mk ErrorKind.other none).raw_os_error = none ∧
      (IOError.mk ErrorKind.other none).kind ≠ ErrorKind.wouldBlock ∧
      handle_incoming false 1
          (AcceptResult.err (IOError.mk ErrorKind.other none) :: []) =
        RunState.mk (LoopOutcome.retErr (IOError.mk ErrorKind.other none)) [] [] :=
  ⟨by decide, by decide,
    claim_no_raw_code_propagated false 1 (IOError.mk ErrorKind.other none) []
      (by decide) (by decide)⟩

/-- C10: `handle_incoming` tests the would-block kind before looking at
the raw OS code: an error whose kind is would-block makes the loop sleep
for the poll interval and retry even when its raw OS code equals the
platform sentinel — the run continues into the remaining trace instead of
returning `Ok`. -/
theorem claim_wouldblock_checked_before_sentinel (windows : Bool)
    (timeout : Nat) (e : IOError) (rest : List AcceptResult)
    (hk : e.kind = ErrorKind.wouldBlock)
    (hr : e.raw_os_error = some (EBADF windows)) :
    handle_incoming windows timeout (AcceptResult.err e :: rest) =
      RunState.mk (handle_incoming windows timeout rest).outcome
        (handle_incoming windows timeout rest).handled
        (timeout :: (handle_incoming windows timeout rest).sleeps) := by
  simp [handle_incoming, incoming, incoming_next, handle_incoming_loop, hk]

theorem claim_wouldblock_checked_before_sentinel_witness :
    (IOError.mk ErrorKind.wouldBlock (some 9)).kind = ErrorKind.wouldBlock ∧
      (IOError.mk ErrorKind.wouldBlock (some 9)).raw_os_error = some (EBADF false) ∧
      handle_incoming false 2
          (AcceptResult.err (IOError.mk ErrorKind.wouldBlock (some 9)) :: []) =
        RunState.mk (handle_incoming false 2 []).outcome
          (handle_incoming false 2 []).handled
          (2 :: (handle_incoming false 2 []).sleeps) :=
  ⟨by decide, by decide,
    claim_wouldblock_checked_before_sentinel false 2
      (IOError.mk ErrorKind.wouldBlock (some 9)) [] (by decide) (by decide)⟩
